import Mathlib

/-!
Shallow embedding of the transport/framing layer, the animation-loop state
updates and the control-dial state machine of the K65 Plus keyboard backends
(packages `k65plus` — the wired variant — and `k65plusW` — the wireless
variant) of OpenLinkHub, together with theorems settling the frozen claims
about them.

Bytes are modelled as `Nat` (values < 256 in the code), byte slices as
`List Nat`.  The Go `uint16` little-endian header written by
`binary.LittleEndian.PutUint16` is modelled by the two byte projections
`u16lo`/`u16hi` with explicit `% 2^16` reduction.
-/

/-- Low byte of a 16-bit little-endian encoding (`binary.LittleEndian.PutUint16`). -/
def u16lo (n : Nat) : Nat := n % 65536 % 256

/-- High byte of a 16-bit little-endian encoding (`binary.LittleEndian.PutUint16`). -/
def u16hi (n : Nat) : Nat := n % 65536 / 256

namespace common

/-- Structural-recursion worker for `ProcessMultiChunkPacket`: `fuel` only
bounds the recursion depth (any `fuel ≥ data.length` gives the same result,
each step consumes at least one element). -/
def ProcessMultiChunkPacketAux (fuel : Nat) (data : List Nat) (maxChunkSize : Nat) :
    List (List Nat) :=
  match fuel, data with
  | _, [] => []
  | 0, x :: xs => [x :: xs]
  | fuel + 1, x :: xs =>
      (x :: xs.take (maxChunkSize - 1)) ::
        ProcessMultiChunkPacketAux fuel (xs.drop (maxChunkSize - 1)) maxChunkSize

/-- Modelled from the spec: `common.ProcessMultiChunkPacket` lives in
`OpenLinkHub/src/common`, which is not part of the provided sources.
Per §4.1 of the spec the framed payload is "split so each chunk's payload
does not exceed `maxChunkPayload` bytes" and the chunks are emitted in
order, so the function returns the successive groups of at most
`maxChunkSize` bytes of `data` (a positive chunk size is assumed, the
call sites pass 61). -/
def ProcessMultiChunkPacket (data : List Nat) (maxChunkSize : Nat) : List (List Nat) :=
  ProcessMultiChunkPacketAux data.length data maxChunkSize

end common

theorem ProcessMultiChunkPacketAux_flatten (fuel : Nat) :
    ∀ (data : List Nat) (m : Nat), data.length ≤ fuel →
      (common.ProcessMultiChunkPacketAux fuel data m).flatten = data := by
  induction fuel with
  | zero =>
      intro data m h
      cases data with
      | nil => simp [common.ProcessMultiChunkPacketAux]
      | cons x xs => simp at h
  | succ fuel ih =>
      intro data m h
      cases data with
      | nil => simp [common.ProcessMultiChunkPacketAux]
      | cons x xs =>
          simp only [common.ProcessMultiChunkPacketAux, List.flatten_cons, List.cons_append,
            List.cons.injEq, true_and]
          rw [ih _ m (by simp only [List.length_drop]; simp at h; omega)]
          exact List.take_append_drop _ xs

/-- Concatenating all chunks, in emission order, restores the chunked buffer. -/
theorem ProcessMultiChunkPacket_join (data : List Nat) (m : Nat) :
    (common.ProcessMultiChunkPacket data m).flatten = data :=
  ProcessMultiChunkPacketAux_flatten data.length data m le_rfl

/-- A buffer no longer than the chunk size yields a single chunk. -/
theorem ProcessMultiChunkPacket_single (x : Nat) (xs : List Nat) (m : Nat)
    (h : xs.length ≤ m - 1) :
    common.ProcessMultiChunkPacket (x :: xs) m = [x :: xs] := by
  show common.ProcessMultiChunkPacketAux (xs.length + 1) (x :: xs) m = [x :: xs]
  rw [common.ProcessMultiChunkPacketAux]
  rw [List.take_of_length_le h, List.drop_eq_nil_of_le h]
  cases xs.length <;> rfl

/-- The chunk-emission loop of both `writeColor` variants: the chunk at
index 0 is transferred with the `first` opcode (`cmdWriteColor` at the call
sites), every later chunk with the `sub` opcode (`dataTypeSubColor`). -/
def chunkTransfers (first sub : List Nat) : List (List Nat) → List (List Nat × List Nat)
  | [] => []
  | c :: cs => (first, c) :: cs.map (fun c2 => (sub, c2))

theorem chunkTransfers_length (first sub : List Nat) (cs : List (List Nat)) :
    (chunkTransfers first sub cs).length = cs.length := by
  cases cs <;> simp [chunkTransfers]

theorem chunkTransfers_get (first sub : List Nat) (cs : List (List Nat))
    (i : Nat) (hi : i < (chunkTransfers first sub cs).length) :
    ((chunkTransfers first sub cs).get ⟨i, hi⟩).1 = if i = 0 then first else sub := by
  cases cs with
  | nil => simp [chunkTransfers] at hi
  | cons c cs =>
      cases i with
      | zero => simp [chunkTransfers]
      | succ j =>
          have hj : j < cs.length := by
            have := hi
            simp [chunkTransfers] at this
            omega
          simp [chunkTransfers, List.getElem_map]

set_option maxRecDepth 8000

namespace k65plus

def dataTypeSetColor : List Nat := [0x12, 0x00]
def dataTypeSubColor : List Nat := [0x07, 0x00]
def cmdWriteColor : List Nat := [0x06, 0x00]
def headerWriteSize : Nat := 4
def maxBufferSizePerRequest : Nat := 61
def colorPacketLength : Nat := 371

/-- The in-place mutation at the top of the wired `writeColor`:
`buf := data; buf[3] = 0; buf[4] = 0; buf[5] = 0`.  Because `buf` aliases
the caller's slice, this is also what the caller's slice holds after the
call returns (when the indexing does not panic, i.e. `6 ≤ data.length`). -/
def zeroBytes345 (data : List Nat) : List Nat :=
  ((data.set 3 0).set 4 0).set 5 0

/-- The framed buffer built by the wired `writeColor`: a buffer of
`len(dataTypeSetColor) + len(buf) + headerWriteSize` bytes holding the
little-endian `uint16(len(buf)+2)` at offsets 0–1, zeros up to
`headerWriteSize` = 4, `dataTypeSetColor` at offsets 4–5 and the
(byte-3/4/5-zeroed) payload from offset 6 on. -/
def framedBuffer (data : List Nat) : List Nat :=
  let buf := zeroBytes345 data
  [u16lo (buf.length + 2), u16hi (buf.length + 2), 0, 0] ++ dataTypeSetColor ++ buf

/-- The wired `writeColor`: the sequence of `(opcode, chunk)` transfers it
performs.  `none` models the Go slice-index panic raised by `buf[3] = 0`,
`buf[4] = 0` or `buf[5] = 0` when the payload is shorter than 6 bytes. -/
def writeColor (data : List Nat) : Option (List (List Nat × List Nat)) :=
  if data.length < 6 then none
  else
    some (chunkTransfers cmdWriteColor dataTypeSubColor
      (common.ProcessMultiChunkPacket (framedBuffer data) maxBufferSizePerRequest))

end k65plus

namespace k65plusW

def dataTypeSetColor : List Nat := [0x7e, 0x20, 0x01]
def dataTypeSubColor : List Nat := [0x07, 0x01]
def cmdWriteColor : List Nat := [0x06, 0x01]
def headerWriteSize : Nat := 4
def maxBufferSizePerRequest : Nat := 61

/-- The framed buffer built by the wireless `writeColor`: little-endian
`uint16(len(data))` at offsets 0–1, zeros up to `headerWriteSize` = 4, the
current data-type tag (the wireless variant reassigns the global
`dataTypeSetColor` per effect, so the tag is a parameter here) and the raw
payload.  Unlike the wired variant, the payload is not mutated and the
header holds `len(data)`, not `len(data)+2`. -/
def framedBuffer (tag data : List Nat) : List Nat :=
  [u16lo data.length, u16hi data.length, 0, 0] ++ tag ++ data

/-- The wireless `writeColor`: the sequence of `(opcode, chunk)` transfers
it performs.  No in-place mutation, no possible panic. -/
def writeColor (tag data : List Nat) : List (List Nat × List Nat) :=
  chunkTransfers cmdWriteColor dataTypeSubColor
    (common.ProcessMultiChunkPacket (framedBuffer tag data) maxBufferSizePerRequest)

end k65plusW

namespace k65plus

/-- Outcome of one iteration of the wired `setDeviceColor` tick loop when
`rgb.GetRgbProfile(d.DeviceProfile.RGBProfile)` returns nil. -/
structure NilProfileTick where
  /-- The buffer built in the nil-profile arm: `{0,0,0}` appended per LED channel. -/
  zeroBuff : List Nat
  /-- Whether the arm logs the "No such RGB profile found" warning. -/
  warned : Bool
  /-- The color payloads handed to `d.writeColor` during the iteration. -/
  writes : List (List Nat)
  deriving DecidableEq, Repr

/-- Embedding of the `profile == nil` arm of the wired `setDeviceColor` tick
loop: `buff` is filled with `LEDChannels` copies of `{0, 0, 0}` and the
warning is logged, but the arm ends in `continue`, which jumps to the next
loop iteration before the `d.writeColor(buff)` call at the bottom of the
iteration is reached — so no buffer is handed to the transport. -/
def setDeviceColorNilProfileTick (ledChannels : Nat) : NilProfileTick :=
  { zeroBuff := (List.replicate ledChannels [0, 0, 0]).flatten
  , warned := true
  , writes := [] }

/-- One tick of the `colorshift` arm: arguments passed to `r.Colorshift`
after the counter/reverse update at the top of the arm (`counterColorshift`
and `reverse` start from 0 and `false` when the loop goroutine starts). -/
def colorshiftRendered (smoothness : Nat) (s : Nat × Bool) : Nat × Bool :=
  if smoothness ≤ s.1 ∧ s.2 = false then (0, true)
  else if smoothness ≤ s.1 ∧ s.2 = true then (0, false)
  else s

/-- One tick of the `colorshift` arm: the `(counterColorshift, reverse)`
state after the arm runs (the counter is incremented after rendering). -/
def colorshiftStep (smoothness : Nat) (s : Nat × Bool) : Nat × Bool :=
  let r := colorshiftRendered smoothness s
  (r.1 + 1, r.2)

/-- One tick of the `colorwarp` arm: the
`(counterColorwarp, colorwarpGeneratedReverse)` state after the arm runs.
When the counter saturates the flag ends up `true` whether or not it was
(the inner `if` only guards the random-color regeneration) and the counter
resets; a counter of 0 with the flag set clears the flag without counting;
otherwise the counter increments.  `r.Colorwarp` is called with the updated
counter. -/
def colorwarpStep (smoothness : Nat) (s : Nat × Bool) : Nat × Bool :=
  if smoothness ≤ s.1 then (0, true)
  else if s.1 = 0 ∧ s.2 = true then (0, false)
  else (s.1 + 1, s.2)

/-- One decoded input report of the wired `controlDialListener` with the
brightness binding active (`ControlDial == 2`): `value` is `data[4]`,
`b19` is `data[19]`; the state is the listener-local `(pv, brightness)`
pair (`brightness` is a Go `uint16`, hence the `% 65536` wrap-around).
A press (`value == 0 && data[19] == 2`) toggles `pv` and forces the level
to 0 or 1000; `value == 1` is rotate-increase (step 100, clamped at 1000);
any other report is rotate-decrease (step 100, clamped at 0). -/
def controlDialBrightnessStep (value b19 : Nat) (s : Bool × Nat) : Bool × Nat :=
  if value = 0 ∧ b19 = 2 then
    let pv := !s.1
    (pv, if pv = true then 0 else 1000)
  else if value = 1 then
    (s.1, if 1000 ≤ s.2 then 1000 else (s.2 + 100) % 65536)
  else
    (s.1, if s.2 = 0 then 0 else (s.2 + 65536 - 100) % 65536)

end k65plus

namespace k65plusW

/-- One decoded input report of the wireless `controlDialListener` with the
brightness binding active.  Same press and rotate-increase handling as the
wired variant, but rotate-decrease only fires on `value == 255`; any other
report leaves the state unchanged. -/
def controlDialBrightnessStep (value b19 : Nat) (s : Bool × Nat) : Bool × Nat :=
  if value = 0 ∧ b19 = 2 then
    let pv := !s.1
    (pv, if pv = true then 0 else 1000)
  else if value = 1 then
    (s.1, if 1000 ≤ s.2 then 1000 else (s.2 + 100) % 65536)
  else if value = 255 then
    (s.1, if s.2 = 0 then 0 else (s.2 + 65536 - 100) % 65536)
  else
    s

end k65plusW

/-- C1: when a color write's framed buffer is split into more than one
chunk by `writeColor`, the chunk at index 0 is transferred with the
write-color opcode `cmdWriteColor` and every chunk at a positive index with
the distinct sub-color opcode `dataTypeSubColor`, in order, for both the
wired and the wireless variant; no chunk after the first uses the
write-color opcode. -/
theorem claim_C1_chunk_opcode_discipline :
    k65plus.cmdWriteColor ≠ k65plus.dataTypeSubColor ∧
    k65plusW.cmdWriteColor ≠ k65plusW.dataTypeSubColor ∧
    (∀ (data : List Nat) (l : List (List Nat × List Nat)),
      k65plus.writeColor data = some l → 1 < l.length →
      ∀ i (hi : i < l.length),
        (l.get ⟨i, hi⟩).1 =
          if i = 0 then k65plus.cmdWriteColor else k65plus.dataTypeSubColor) ∧
    (∀ (tag data : List Nat), 1 < (k65plusW.writeColor tag data).length →
      ∀ i (hi : i < (k65plusW.writeColor tag data).length),
        ((k65plusW.writeColor tag data).get ⟨i, hi⟩).1 =
          if i = 0 then k65plusW.cmdWriteColor else k65plusW.dataTypeSubColor) := by
  refine ⟨by decide, by decide, ?_, ?_⟩
  · intro data l hl _ i hi
    unfold k65plus.writeColor at hl
    by_cases h6 : data.length < 6
    · simp [h6] at hl
    · simp only [h6, if_false, Option.some.injEq] at hl
      subst hl
      exact chunkTransfers_get _ _ _ i hi
  · intro tag data _ i hi
    exact chunkTransfers_get _ _ _ i hi

/-- Witness for C1: a 61-byte wired payload (67-byte framed buffer, two
chunks) and an 89-byte wireless payload (96-byte framed buffer, two
chunks). -/
theorem claim_C1_witness :
    (k65plus.writeColor (List.replicate 61 1) =
        some ((k65plus.writeColor (List.replicate 61 1)).getD []) ∧
      1 < ((k65plus.writeColor (List.replicate 61 1)).getD []).length ∧
      ∀ i (hi : i < ((k65plus.writeColor (List.replicate 61 1)).getD []).length),
        (((k65plus.writeColor (List.replicate 61 1)).getD []).get ⟨i, hi⟩).1 =
          if i = 0 then k65plus.cmdWriteColor else k65plus.dataTypeSubColor) ∧
    (1 < (k65plusW.writeColor k65plusW.dataTypeSetColor (List.replicate 89 2)).length ∧
      ∀ i (hi : i < (k65plusW.writeColor k65plusW.dataTypeSetColor (List.replicate 89 2)).length),
        ((k65plusW.writeColor k65plusW.dataTypeSetColor (List.replicate 89 2)).get ⟨i, hi⟩).1 =
          if i = 0 then k65plusW.cmdWriteColor else k65plusW.dataTypeSubColor) :=
  ⟨⟨by decide, by decide,
      claim_C1_chunk_opcode_discipline.2.2.1 (List.replicate 61 1) _ (by decide) (by decide)⟩,
   ⟨by decide,
      claim_C1_chunk_opcode_discipline.2.2.2 k65plusW.dataTypeSetColor (List.replicate 89 2)
        (by decide)⟩⟩

/-- C2: for every framed color buffer, concatenating the payloads of all
chunks produced by `ProcessMultiChunkPacket` with
`maxBufferSizePerRequest = 61`, in emission order, reproduces the original
framed buffer exactly (in particular for the lengths 0, 1, 61, 62 and 371
named by the claim). -/
theorem claim_C2_chunking_roundtrip (data : List Nat) :
    (common.ProcessMultiChunkPacket data k65plus.maxBufferSizePerRequest).flatten = data :=
  ProcessMultiChunkPacket_join data _

/-- Counterexample to C3: for a 6-byte payload the wired variant's framed
buffer starts with the little-endian encoding of 8 = payload length + 2,
not of the payload length 6, so "the first two bytes hold the 16-bit total
length of the color payload, identically in both variants" fails on the
wired variant. -/
theorem claim_C3_counterexample :
    (k65plus.framedBuffer (List.replicate 6 1)).take 2 = [8, 0] ∧
    ¬(k65plus.framedBuffer (List.replicate 6 1)).take 2 = [u16lo 6, u16hi 6] := by
  decide

/-- C3 (amended): both variants place a 16-bit little-endian header in the
first two bytes of the framed buffer, but the encoded value differs: the
wireless variant writes the payload length, the wired variant writes the
payload length plus 2. -/
theorem claim_C3_amended_length_header :
    (∀ tag data : List Nat,
      (k65plusW.framedBuffer tag data).take 2 = [u16lo data.length, u16hi data.length]) ∧
    (∀ data : List Nat, 6 ≤ data.length →
      (k65plus.framedBuffer data).take 2 =
        [u16lo (data.length + 2), u16hi (data.length + 2)]) := by
  constructor
  · intro tag data
    simp [k65plusW.framedBuffer]
  · intro data _
    simp [k65plus.framedBuffer, k65plus.zeroBytes345]

/-- Witness for C3 (amended) at a 6-byte wired payload. -/
theorem claim_C3_amended_witness :
    6 ≤ (List.replicate 6 1 : List Nat).length ∧
    (k65plus.framedBuffer (List.replicate 6 1)).take 2 =
      [u16lo ((List.replicate 6 1 : List Nat).length + 2),
       u16hi ((List.replicate 6 1 : List Nat).length + 2)] :=
  ⟨by decide, claim_C3_amended_length_header.2 (List.replicate 6 1) (by decide)⟩

/-- Counterexample to C4: the wired `writeColor` does not survive a
zero-length payload — `buf[3] = 0` raises a slice-index panic (modelled as
`none`), so "without any failure (for both the wired and the wireless
variant)" is false. -/
theorem claim_C4_counterexample : k65plus.writeColor [] = none := by decide

/-- C4 (amended): for a zero-length payload the wireless `writeColor`
emits exactly one chunk holding only the (all-zero) length header, the
padding and the data-type tag; the wired `writeColor` panics on every
payload shorter than 6 bytes, the zero-length payload included. -/
theorem claim_C4_amended_zero_payload :
    (∀ tag : List Nat, tag.length ≤ 57 →
      k65plusW.writeColor tag [] = [(k65plusW.cmdWriteColor, [0, 0, 0, 0] ++ tag)]) ∧
    (∀ data : List Nat, data.length < 6 → k65plus.writeColor data = none) := by
  constructor
  · intro tag h
    unfold k65plusW.writeColor
    have hframe : k65plusW.framedBuffer tag [] = 0 :: 0 :: 0 :: 0 :: tag := by
      simp [k65plusW.framedBuffer, u16lo, u16hi]
    rw [hframe, ProcessMultiChunkPacket_single _ _ _
      (by simp only [List.length_cons, k65plusW.maxBufferSizePerRequest]; omega)]
    rfl
  · intro data h
    simp [k65plus.writeColor, h]

/-- Witness for C4 (amended): the wireless default tag and a 3-byte wired
payload. -/
theorem claim_C4_amended_witness :
    (k65plusW.dataTypeSetColor.length ≤ 57 ∧
      k65plusW.writeColor k65plusW.dataTypeSetColor [] =
        [(k65plusW.cmdWriteColor, [0, 0, 0, 0] ++ k65plusW.dataTypeSetColor)]) ∧
    (([1, 2, 3] : List Nat).length < 6 ∧ k65plus.writeColor [1, 2, 3] = none) :=
  ⟨⟨by decide, claim_C4_amended_zero_payload.1 k65plusW.dataTypeSetColor (by decide)⟩,
   ⟨by decide, claim_C4_amended_zero_payload.2 [1, 2, 3] (by decide)⟩⟩

/-- C10: for every payload of length at least 6 given to the wired
`writeColor`, the color payload that reaches the transport — the framed
buffer reassembled from the emitted chunks, stripped of its 4 header bytes
and 2 tag bytes — carries zeros at indices 3, 4 and 5 whatever the input
held there, and it equals `zeroBytes345 data`, which is also what the
caller's aliased slice holds after the in-place `buf[3] = buf[4] = buf[5]
= 0` assignments. -/
theorem claim_C10_inplace_zeroing (data : List Nat) (h : 6 ≤ data.length) :
    ((common.ProcessMultiChunkPacket (k65plus.framedBuffer data)
        k65plus.maxBufferSizePerRequest).flatten).drop 6 = k65plus.zeroBytes345 data ∧
    (k65plus.zeroBytes345 data)[3]? = some 0 ∧
    (k65plus.zeroBytes345 data)[4]? = some 0 ∧
    (k65plus.zeroBytes345 data)[5]? = some 0 := by
  rcases data with _ | ⟨a, _ | ⟨b, _ | ⟨c, _ | ⟨d, _ | ⟨e, _ | ⟨f, rest⟩⟩⟩⟩⟩⟩ <;>
    simp only [List.length_nil, List.length_cons] at h <;> try omega
  refine ⟨?_, by simp [k65plus.zeroBytes345], by simp [k65plus.zeroBytes345],
    by simp [k65plus.zeroBytes345]⟩
  rw [ProcessMultiChunkPacket_join]
  simp [k65plus.framedBuffer, k65plus.dataTypeSetColor, k65plus.zeroBytes345]

/-- Witness for C10 at the 6-byte payload `[9, 9, 9, 9, 9, 9]`. -/
theorem claim_C10_witness :
    6 ≤ (List.replicate 6 9 : List Nat).length ∧
    (((common.ProcessMultiChunkPacket (k65plus.framedBuffer (List.replicate 6 9))
        k65plus.maxBufferSizePerRequest).flatten).drop 6 =
          k65plus.zeroBytes345 (List.replicate 6 9) ∧
      (k65plus.zeroBytes345 (List.replicate 6 9))[3]? = some 0 ∧
      (k65plus.zeroBytes345 (List.replicate 6 9))[4]? = some 0 ∧
      (k65plus.zeroBytes345 (List.replicate 6 9))[5]? = some 0) :=
  ⟨by decide, claim_C10_inplace_zeroing (List.replicate 6 9) (by decide)⟩

/-- C5 (evaluation of the code at the failing input): on a tick where the
active profile cannot be resolved, the wired loop builds the
3-bytes-per-channel all-zero buffer (369 zeros for this model's 123 LED
channels) and logs the warning, but the arm ends in `continue` before the
`d.writeColor(buff)` call at the bottom of the iteration, so no buffer at
all is handed to the transport — the emission the claim (and the spec)
require never happens, though the loop indeed proceeds without crashing. -/
theorem claim_C5_nil_profile_builds_but_never_emits :
    (k65plus.setDeviceColorNilProfileTick 123).zeroBuff = List.replicate (3 * 123) 0 ∧
    (k65plus.setDeviceColorNilProfileTick 123).warned = true ∧
    (k65plus.setDeviceColorNilProfileTick 123).writes = [] := by
  decide

/-- Counterexample to C6: with smoothness 10, starting from counter 0 and
reverse flag `false`, after exactly 10 ticks both the colorshift state and
the colorwarp state are `(10, false)` — the counter has not reset to 0 and
the flag has not toggled at all; the reversal only happens on the 11th
tick. -/
theorem claim_C6_counterexample :
    (k65plus.colorshiftStep 10)^[10] (0, false) = (10, false) ∧
    ¬(((k65plus.colorshiftStep 10)^[10] (0, false)).1 = 0 ∧
      ((k65plus.colorshiftStep 10)^[10] (0, false)).2 = true) ∧
    (k65plus.colorwarpStep 10)^[10] (0, false) = (10, false) ∧
    ¬(((k65plus.colorwarpStep 10)^[10] (0, false)).1 = 0 ∧
      ((k65plus.colorwarpStep 10)^[10] (0, false)).2 = true) := by
  decide

/-- C6 (amended): with smoothness 10 from `(0, false)` the direction
reversal happens on the 11th tick, not after 10: the flag is `false` after
ticks 0–10 and has toggled exactly once after tick 11 for both effects;
at that point the colorwarp counter is 0, while colorshift resets its
counter to 0 during tick 11 (the frame rendered on that tick uses counter
0 and the toggled flag) and ends the tick with counter 1. -/
theorem claim_C6_amended_reversal_on_eleventh_tick :
    (k65plus.colorwarpStep 10)^[11] (0, false) = (0, true) ∧
    (k65plus.colorshiftStep 10)^[11] (0, false) = (1, true) ∧
    k65plus.colorshiftRendered 10 ((k65plus.colorshiftStep 10)^[10] (0, false)) = (0, true) ∧
    (List.range 12).map (fun k => ((k65plus.colorshiftStep 10)^[k] (0, false)).2) =
      List.replicate 11 false ++ [true] ∧
    (List.range 12).map (fun k => ((k65plus.colorwarpStep 10)^[k] (0, false)).2) =
      List.replicate 11 false ++ [true] := by
  decide

theorem wired_dial_inc_preserves (s : Bool × Nat) (h1 : 100 ∣ s.2) (h2 : s.2 ≤ 1000) :
    (k65plus.controlDialBrightnessStep 1 0 s).1 = s.1 ∧
    100 ∣ (k65plus.controlDialBrightnessStep 1 0 s).2 ∧
    (k65plus.controlDialBrightnessStep 1 0 s).2 ≤ 1000 := by
  have hstep : k65plus.controlDialBrightnessStep 1 0 s =
      (s.1, if 1000 ≤ s.2 then 1000 else (s.2 + 100) % 65536) := by
    simp [k65plus.controlDialBrightnessStep]
  rw [hstep]
  by_cases hb : 1000 ≤ s.2
  · simp only [if_pos hb]
    exact ⟨trivial, by norm_num, le_rfl⟩
  · have hm : (s.2 + 100) % 65536 = s.2 + 100 := Nat.mod_eq_of_lt (by omega)
    simp only [if_neg hb, hm]
    exact ⟨trivial, by omega, by omega⟩

theorem wired_dial_dec_preserves (s : Bool × Nat) (h1 : 100 ∣ s.2) (h2 : s.2 ≤ 200) :
    (k65plus.controlDialBrightnessStep 255 0 s).1 = s.1 ∧
    100 ∣ (k65plus.controlDialBrightnessStep 255 0 s).2 ∧
    (k65plus.controlDialBrightnessStep 255 0 s).2 ≤ 200 := by
  have hstep : k65plus.controlDialBrightnessStep 255 0 s =
      (s.1, if s.2 = 0 then 0 else (s.2 + 65536 - 100) % 65536) := by
    simp [k65plus.controlDialBrightnessStep]
  rw [hstep]
  by_cases hb : s.2 = 0
  · simp only [if_pos hb]
    exact ⟨trivial, Dvd.intro 0 rfl, by norm_num⟩
  · have hm : (s.2 + 65536 - 100) % 65536 = s.2 - 100 := by omega
    simp only [if_neg hb, hm]
    exact ⟨trivial, by omega, by omega⟩

theorem wired_dial_inc_iterate_inv (start : Nat) (h1 : 100 ∣ start) (h2 : start ≤ 1000)
    (n : Nat) :
    ((fun s => k65plus.controlDialBrightnessStep 1 0 s)^[n] (false, start)).1 = false ∧
    100 ∣ ((fun s => k65plus.controlDialBrightnessStep 1 0 s)^[n] (false, start)).2 ∧
    ((fun s => k65plus.controlDialBrightnessStep 1 0 s)^[n] (false, start)).2 ≤ 1000 := by
  induction n with
  | zero => exact ⟨rfl, h1, h2⟩
  | succ n ih =>
      rw [Function.iterate_succ_apply']
      have h := wired_dial_inc_preserves _ ih.2.1 ih.2.2
      exact ⟨h.1.trans ih.1, h.2.1, h.2.2⟩

theorem wired_dial_dec_iterate_inv (start : Nat) (h1 : 100 ∣ start) (h2 : start ≤ 200)
    (n : Nat) :
    ((fun s => k65plus.controlDialBrightnessStep 255 0 s)^[n] (false, start)).1 = false ∧
    100 ∣ ((fun s => k65plus.controlDialBrightnessStep 255 0 s)^[n] (false, start)).2 ∧
    ((fun s => k65plus.controlDialBrightnessStep 255 0 s)^[n] (false, start)).2 ≤ 200 := by
  induction n with
  | zero => exact ⟨rfl, h1, h2⟩
  | succ n ih =>
      rw [Function.iterate_succ_apply']
      have h := wired_dial_dec_preserves _ ih.2.1 ih.2.2
      exact ⟨h.1.trans ih.1, h.2.1, h.2.2⟩

/-- On rotate-increase reports (`value = 1`) the wireless listener computes
exactly what the wired one does. -/
theorem wireless_dial_inc_eq :
    (fun s => k65plusW.controlDialBrightnessStep 1 0 s) =
      (fun s => k65plus.controlDialBrightnessStep 1 0 s) := by
  funext s
  obtain ⟨pv, b⟩ := s
  simp [k65plusW.controlDialBrightnessStep, k65plus.controlDialBrightnessStep]

/-- On rotate-decrease reports (`value = 255`) the wireless listener
computes exactly what the wired one does. -/
theorem wireless_dial_dec_eq :
    (fun s => k65plusW.controlDialBrightnessStep 255 0 s) =
      (fun s => k65plus.controlDialBrightnessStep 255 0 s) := by
  funext s
  obtain ⟨pv, b⟩ := s
  simp [k65plusW.controlDialBrightnessStep, k65plus.controlDialBrightnessStep]

/-- C7: with the brightness binding active (`ControlDial = 2`), in both
variants: from stored level 500 three rotate-increase reports reach 800 and
from the fifth report on every further increase leaves the level clamped at
1000 (the level never exceeds 1000 along the way); from stored level 200
the third rotate-decrease report reaches 0, further decreases stay at 0,
and the `uint16` level never underflows — it stays at most 200 (so never a
wrapped-around 65xxx value) at every step. -/
theorem claim_C7_dial_brightness_rotation :
    ((fun s => k65plus.controlDialBrightnessStep 1 0 s)^[3] (false, 500) = (false, 800) ∧
      (∀ n, (fun s => k65plus.controlDialBrightnessStep 1 0 s)^[n + 5] (false, 500) =
        (false, 1000)) ∧
      (∀ n, ((fun s => k65plus.controlDialBrightnessStep 1 0 s)^[n] (false, 500)).2 ≤ 1000) ∧
      (fun s => k65plus.controlDialBrightnessStep 255 0 s)^[3] (false, 200) = (false, 0) ∧
      (∀ n, (fun s => k65plus.controlDialBrightnessStep 255 0 s)^[n + 2] (false, 200) =
        (false, 0)) ∧
      (∀ n, ((fun s => k65plus.controlDialBrightnessStep 255 0 s)^[n] (false, 200)).2 ≤ 200)) ∧
    ((fun s => k65plusW.controlDialBrightnessStep 1 0 s)^[3] (false, 500) = (false, 800) ∧
      (∀ n, (fun s => k65plusW.controlDialBrightnessStep 1 0 s)^[n + 5] (false, 500) =
        (false, 1000)) ∧
      (∀ n, ((fun s => k65plusW.controlDialBrightnessStep 1 0 s)^[n] (false, 500)).2 ≤ 1000) ∧
      (fun s => k65plusW.controlDialBrightnessStep 255 0 s)^[3] (false, 200) = (false, 0) ∧
      (∀ n, (fun s => k65plusW.controlDialBrightnessStep 255 0 s)^[n + 2] (false, 200) =
        (false, 0)) ∧
      (∀ n, ((fun s => k65plusW.controlDialBrightnessStep 255 0 s)^[n] (false, 200)).2 ≤ 200)) := by
  have hinc : ∀ n, (fun s => k65plus.controlDialBrightnessStep 1 0 s)^[n + 5] (false, 500) =
      (false, 1000) := by
    intro n
    rw [Function.iterate_add_apply]
    have h5 : (fun s => k65plus.controlDialBrightnessStep 1 0 s)^[5] (false, 500) =
        (false, 1000) := by decide
    rw [h5]
    exact Function.iterate_fixed (by decide) n
  have hdec : ∀ n, (fun s => k65plus.controlDialBrightnessStep 255 0 s)^[n + 2] (false, 200) =
      (false, 0) := by
    intro n
    rw [Function.iterate_add_apply]
    have h2 : (fun s => k65plus.controlDialBrightnessStep 255 0 s)^[2] (false, 200) =
        (false, 0) := by decide
    rw [h2]
    exact Function.iterate_fixed (by decide) n
  refine ⟨⟨by decide, hinc, ?_, by decide, hdec, ?_⟩, ?_⟩
  · exact fun n => (wired_dial_inc_iterate_inv 500 (by decide) (by decide) n).2.2
  · exact fun n => (wired_dial_dec_iterate_inv 200 (by decide) (by decide) n).2.2
  · rw [wireless_dial_inc_eq, wireless_dial_dec_eq]
    refine ⟨by decide, hinc, ?_, by decide, hdec, ?_⟩
    · exact fun n => (wired_dial_inc_iterate_inv 500 (by decide) (by decide) n).2.2
    · exact fun n => (wired_dial_dec_iterate_inv 200 (by decide) (by decide) n).2.2

/-- Counterexample to C8: with remembered level 500, pressing twice does
not restore 500 — the second press forces the level to the constant 1000,
in both variants. -/
theorem claim_C8_counterexample :
    k65plus.controlDialBrightnessStep 0 2
        (k65plus.controlDialBrightnessStep 0 2 (false, 500)) = (false, 1000) ∧
    ¬(k65plus.controlDialBrightnessStep 0 2
        (k65plus.controlDialBrightnessStep 0 2 (false, 500))).2 = 500 ∧
    k65plusW.controlDialBrightnessStep 0 2
        (k65plusW.controlDialBrightnessStep 0 2 (false, 500)) = (false, 1000) ∧
    ¬(k65plusW.controlDialBrightnessStep 0 2
        (k65plusW.controlDialBrightnessStep 0 2 (false, 500))).2 = 500 := by
  decide

/-- C8 (amended): a press toggles the brightness level between zero and the
constant 1000, not the previously remembered level: from an un-toggled
state with any stored level L, one press yields 0, and a second press sets
1000 regardless of L, in both variants. -/
theorem claim_C8_amended_press_toggle (L : Nat) :
    k65plus.controlDialBrightnessStep 0 2 (false, L) = (true, 0) ∧
    k65plus.controlDialBrightnessStep 0 2 (true, L) = (false, 1000) ∧
    k65plusW.controlDialBrightnessStep 0 2 (false, L) = (true, 0) ∧
    k65plusW.controlDialBrightnessStep 0 2 (true, L) = (false, 1000) := by
  refine ⟨?_, ?_, ?_, ?_⟩ <;>
    simp [k65plus.controlDialBrightnessStep, k65plusW.controlDialBrightnessStep]
